import Mathlib

/-!
Shallow embedding of the simplescp server core (simplescp.go).

The embedding models the per-request handler `handleRequest`, the option
parsing loop it contains, and the SFTP subsystem dispatch, as pure
functions producing a trace of observable channel events.  External
collaborators (the SCP source/sink engines, the sftp server library) are
represented by parameters giving their reported outcome; the handler code
under verification decides what is done with those outcomes.
-/

/-- The scpOptions struct of simplescp.go: mode flags plus the ordered
list of file-name arguments collected while parsing the command line. -/
structure scpOptions where
  To : Bool := false
  From : Bool := false
  TargetIsDir : Bool := false
  Recursive : Bool := false
  PreserveMode : Bool := false
  fileNames : List String := []
  deriving Repr, DecidableEq

/-- One iteration of the flag-parsing loop in handleRequest
(simplescp.go lines 116-142).  The state is the pair of the Go loop's
`parseOpts` boolean and the options record being built.  The whole loop
body is guarded by `if parseOpts`; note that the `else` arm inside the
`"--"` case of the Go switch is therefore dead code, reproduced here
faithfully. -/
def parseStep (st : Bool × scpOptions) (elem : String) : Bool × scpOptions :=
  if st.1 then
    if elem = "-f" then (st.1, { st.2 with From := true })
    else if elem = "-t" then (st.1, { st.2 with To := true })
    else if elem = "-d" then (st.1, { st.2 with TargetIsDir := true })
    else if elem = "-p" then (st.1, { st.2 with PreserveMode := true })
    else if elem = "-r" then (st.1, { st.2 with Recursive := true })
    else if elem = "-v" then st
    else if elem = "--" then
      if st.1 then (false, st.2)
      else (st.1, { st.2 with fileNames := st.2.fileNames ++ [elem] })
    else (st.1, { st.2 with fileNames := st.2.fileNames ++ [elem] })
  else st

/-- The flag-parsing loop of handleRequest applied to the tokens after
the leading "scp" token (the Go `for _, elem := range s[1:]`). -/
def parseArgs (args : List String) : scpOptions :=
  (args.foldl parseStep (true, {})).2

/-- Result of the sftp server's Serve call as observed at the call site
in handleSFTP: nil error, io.EOF, or some other error. -/
inductive serveResult where
  | ok
  | eof
  | fail (msg : String)
  deriving Repr, DecidableEq

/-- Observable events a handler performs on a channel / request. -/
inductive Event where
  | replyOk
  | replyFail (msg : Option String)
  | writeChan (msg : String)
  | sendError (msg : String)
  | exitStatus (code : Nat)
  | closeChan
  | sourceRun (opts : scpOptions)
  | sinkRun (opts : scpOptions) (ok : Bool)
  | sftpServe
  deriving Repr, DecidableEq

/-- The `if opts.From` branch of handleRequest (simplescp.go lines
148-158): run the source engine, then reply success, or reply failure
with the engine's error message.  `sourceErr` is the error returned by
startSCPSource (an external collaborator). -/
def fromBranchEvents (sourceErr : Option String) (opts : scpOptions) : List Event :=
  if opts.From then
    Event.sourceRun opts ::
      (match sourceErr with
       | some e => [Event.replyFail (some e)]
       | none => [Event.replyOk])
  else []

/-- The `if opts.To` branch of handleRequest (simplescp.go lines
160-176): with other than exactly one file name, send the ambiguous
target error and status 1; otherwise run the sink engine.  The Go code
discards whatever the sink run reports (`sinkOk` records that outcome in
the trace; the statusCode variable stays 0).  Then send the exit status,
close the channel, and reply. -/
def toBranchEvents (sinkOk : Bool) (opts : scpOptions) : List Event :=
  if opts.To then
    if opts.fileNames.length ≠ 1 then
      [Event.sendError "scp: ambiguous target", Event.exitStatus 1,
       Event.closeChan, Event.replyFail none]
    else
      [Event.sinkRun opts sinkOk, Event.exitStatus 0,
       Event.closeChan, Event.replyOk]
  else []

/-- The events of the rejection path for a non-"scp" leading token
(simplescp.go lines 93-98): reply failure, write a plaintext message to
the channel, close the channel. -/
def rejectionTrace : List Event :=
  [Event.replyFail (some "Only scp is supported"),
   Event.writeChan "Only scp is supported\n", Event.closeChan]

/-- handleRequest (simplescp.go lines 83-177) on the token list produced
by shlex.Split of the exec payload.  Evaluating `s[0]` on an empty token
list panics in Go (index out of range), modelled as `none`.  A non-"scp"
leading token is rejected immediately; otherwise the remaining tokens
are parsed into options and the source and sink branches run in order. -/
def handleRequest (sourceErr : Option String) (sinkOk : Bool)
    (tokens : List String) : Option (List Event) :=
  match tokens with
  | [] => none
  | cmd :: args =>
    if cmd ≠ "scp" then
      some rejectionTrace
    else
      let opts := parseArgs args
      some (fromBranchEvents sourceErr opts ++ toBranchEvents sinkOk opts)

/-- handleSFTP (simplescp.go lines 62-80): if sftp.NewServer fails the
function just logs and returns; otherwise it serves, sends exit status 0
when Serve returned nil or io.EOF and 1 otherwise, and closes the
channel. -/
def handleSFTP (newServerOk : Bool) (res : serveResult) : List Event :=
  if newServerOk then
    Event.sftpServe ::
      (match res with
       | serveResult.ok => [Event.exitStatus 0, Event.closeChan]
       | serveResult.eof => [Event.exitStatus 0, Event.closeChan]
       | serveResult.fail _ => [Event.exitStatus 1, Event.closeChan])
  else []

/-- The "subsystem" case of handleNewChannel (simplescp.go lines
210-217): a request naming "sftp" is handed to handleSFTP and then
acknowledged; any other name is acknowledged positively and nothing
else happens. -/
def handleSubsystem (name : String) (newServerOk : Bool)
    (res : serveResult) : List Event :=
  if name = "sftp" then handleSFTP newServerOk res ++ [Event.replyOk]
  else [Event.replyOk]

/-- Is this event a reply to the originating request? -/
def isReply : Event → Bool
  | Event.replyOk => true
  | Event.replyFail _ => true
  | _ => false

/-- Number of replies to the originating request in a trace. -/
def replyCount (t : List Event) : Nat := t.countP isReply

/-- The exit-status codes sent in a trace, in order. -/
def exitCodes (t : List Event) : List Nat :=
  t.filterMap fun e => match e with
    | Event.exitStatus s => some s
    | _ => none

/-- Number of channel closes in a trace. -/
def closeCount (t : List Event) : Nat :=
  t.countP fun e => decide (e = Event.closeChan)

/-- The trace closes the channel exactly once, immediately after
sending an exit status. -/
def closesOnceAfterExit (t : List Event) : Prop :=
  ∃ pre post s, t = pre ++ Event.exitStatus s :: Event.closeChan :: post
    ∧ closeCount pre = 0 ∧ closeCount post = 0

/-- The flag fields of an options record, fileNames omitted. -/
def flagsOf (o : scpOptions) : Bool × Bool × Bool × Bool × Bool :=
  (o.From, o.To, o.TargetIsDir, o.PreserveMode, o.Recursive)

/-- C1: the claim says tokens after `--` are appended to the file-name
list; the code instead drops every token after `--` (the append arm in
the `--` case is dead code because the whole switch is guarded by
`if parseOpts`).  At input tokens `-- -f x` the parser returns the empty
options record: flag parsing did stop, but `-f` and `x` were discarded
rather than collected as file names. -/
theorem dashDashDropsFollowingTokens :
    parseArgs ["--", "-f", "x"] = {}
  ∧ (parseArgs ["--", "-f", "x"]).fileNames ≠ ["-f", "x"] := by
  decide

/-- C4: handleRequest evaluated on an empty recovered token list does
not proceed: indexing `s[0]` panics (index out of range), modelled as
`none`.  This crashes the process, contrary to the claim. -/
theorem emptyTokenListPanics (sourceErr : Option String) (sinkOk : Bool) :
    handleRequest sourceErr sinkOk [] = none := rfl

/-- C3: an exec request selecting the sink role with a file-name list
whose length is not one is rejected with exactly the ambiguous-target
events: error message, exit status 1, channel close, failure reply;
in particular no sinkRun and no sourceRun event occurs (no protocol
exchange, no file-system mutation). -/
theorem ambiguousTargetRejected (sourceErr : Option String) (sinkOk : Bool)
    (args : List String)
    (hTo : (parseArgs args).To = true) (hFrom : (parseArgs args).From = false)
    (hn : (parseArgs args).fileNames.length ≠ 1) :
    handleRequest sourceErr sinkOk ("scp" :: args) =
      some [Event.sendError "scp: ambiguous target", Event.exitStatus 1,
            Event.closeChan, Event.replyFail none] := by
  simp [handleRequest, fromBranchEvents, toBranchEvents, hTo, hFrom, hn]

/-- Witness for C3 at the concrete request `scp -t` (zero targets). -/
theorem ambiguousTargetRejected_witness :
    handleRequest none true ["scp", "-t"] =
      some [Event.sendError "scp: ambiguous target", Event.exitStatus 1,
            Event.closeChan, Event.replyFail none] :=
  ambiguousTargetRejected none true ["-t"] (by decide) (by decide) (by decide)

/-- C6: an exec request whose leading token is not "scp" is rejected
with exactly the events failure reply, plaintext message write, channel
close; no transfer-engine event occurs. -/
theorem nonScpCommandRejected (sourceErr : Option String) (sinkOk : Bool)
    (cmd : String) (args : List String) (h : cmd ≠ "scp") :
    handleRequest sourceErr sinkOk (cmd :: args) = some rejectionTrace
  ∧ ∀ (o : scpOptions) (b : Bool),
      Event.sourceRun o ∉ rejectionTrace ∧ Event.sinkRun o b ∉ rejectionTrace := by
  refine ⟨by simp [handleRequest, h], fun o b => ⟨?_, ?_⟩⟩ <;> simp [rejectionTrace]

/-- Witness for C6 at the concrete request `ls`. -/
theorem nonScpCommandRejected_witness :
    handleRequest none true ["ls"] = some rejectionTrace
  ∧ ∀ (o : scpOptions) (b : Bool),
      Event.sourceRun o ∉ rejectionTrace ∧ Event.sinkRun o b ∉ rejectionTrace :=
  nonScpCommandRejected none true "ls" [] (by decide)

/-- C7: an exec request naming scp whose parsed options set neither From
nor To produces an empty event trace: no transfer, no reply, no exit
status, no channel close. -/
theorem neitherFlagFallsThrough (sourceErr : Option String) (sinkOk : Bool)
    (args : List String)
    (hf : (parseArgs args).From = false) (ht : (parseArgs args).To = false) :
    handleRequest sourceErr sinkOk ("scp" :: args) = some [] := by
  simp [handleRequest, fromBranchEvents, toBranchEvents, hf, ht]

/-- Witness for C7 at the concrete request `scp` with no arguments. -/
theorem neitherFlagFallsThrough_witness :
    handleRequest none true ["scp"] = some [] :=
  neitherFlagFallsThrough none true [] rfl rfl

/-- C8: a subsystem request naming "sftp" hands the channel to the sftp
engine and sends exit status 0 exactly when Serve reports nil or EOF and
1 otherwise, then closes and acknowledges; any other subsystem name is
acknowledged positively with no service. -/
theorem subsystemDispatchStatus (name : String) (nsOk : Bool) (res : serveResult) :
    (name = "sftp" →
       handleSubsystem name true res =
         [Event.sftpServe,
          Event.exitStatus
            (if res = serveResult.ok ∨ res = serveResult.eof then 0 else 1),
          Event.closeChan, Event.replyOk])
  ∧ (name ≠ "sftp" → handleSubsystem name nsOk res = [Event.replyOk]) := by
  constructor
  · intro h
    subst h
    cases res <;> simp [handleSubsystem, handleSFTP]
  · intro h
    simp [handleSubsystem, h]

/-- Witness for C8: the sftp subsystem with a clean end-of-stream gets
exit status 0, and an "echo" subsystem request is merely acknowledged. -/
theorem subsystemDispatchStatus_witness :
    handleSubsystem "sftp" true serveResult.eof =
      [Event.sftpServe, Event.exitStatus 0, Event.closeChan, Event.replyOk]
  ∧ handleSubsystem "echo" true serveResult.ok = [Event.replyOk] := by
  have h := (subsystemDispatchStatus "sftp" true serveResult.eof).1 rfl
  exact ⟨by simpa using h,
    (subsystemDispatchStatus "echo" true serveResult.ok).2 (by decide)⟩

/-- C2 counterexample: at the concrete request `scp -t a` whose sink run
reports failure (sinkOk = false), the handler still delivers exit status
0: the sole exit code in the trace is 0 while the trace records a failed
sink run.  This refutes the claimed iff between exit status 0 and clean
completion. -/
theorem sinkFailureStillGetsExitZero :
    handleRequest none false ["scp", "-t", "a"] =
      some [Event.sinkRun { To := true, fileNames := ["a"] } false,
            Event.exitStatus 0, Event.closeChan, Event.replyOk]
  ∧ exitCodes ((handleRequest none false ["scp", "-t", "a"]).getD []) = [0] := by
  decide

/-- C2 amended: the sink branch sends exit status 1 exactly when the
target list is ambiguous (length other than one) and 0 otherwise,
independent of the sink run's outcome; the source branch sends no exit
status at all; only the SFTP path satisfies the claimed iff (exit status
0 exactly on clean completion or clean end-of-stream). -/
theorem exitStatusPolicy (sinkOk : Bool) (sourceErr : Option String)
    (opts : scpOptions) (res : serveResult) :
    (opts.To = true →
       exitCodes (toBranchEvents sinkOk opts) =
         [if opts.fileNames.length = 1 then 0 else 1])
  ∧ exitCodes (fromBranchEvents sourceErr opts) = []
  ∧ (exitCodes (handleSFTP true res) = [0] ↔
       (res = serveResult.ok ∨ res = serveResult.eof)) := by
  refine ⟨?_, ?_, ?_⟩
  · intro h
    by_cases hl : opts.fileNames.length = 1 <;>
      simp [toBranchEvents, exitCodes, h, hl]
  · cases hF : opts.From <;> cases sourceErr <;>
      simp [fromBranchEvents, exitCodes, hF]
  · cases res <;> simp [handleSFTP, exitCodes]

/-- Witness for C2's amended theorem at a failing sink run with exactly
one target: the exit status sent is 0. -/
theorem exitStatusPolicy_witness :
    exitCodes (toBranchEvents false { To := true, fileNames := ["a"] }) = [0] := by
  have h := (exitStatusPolicy false none { To := true, fileNames := ["a"] }
    serveResult.eof).1 rfl
  simpa using h

/-- C10: when the parsed options set both From and To, the handler runs
the source branch first (the trace is the source-branch events followed
by the sink-branch events, and it starts with the sourceRun event) and
replies to the same request once per branch, two replies in total. -/
theorem bothFlagsRunSourceThenSink (sourceErr : Option String) (sinkOk : Bool)
    (args : List String)
    (hf : (parseArgs args).From = true) (ht : (parseArgs args).To = true) :
    handleRequest sourceErr sinkOk ("scp" :: args) =
      some (fromBranchEvents sourceErr (parseArgs args) ++
            toBranchEvents sinkOk (parseArgs args))
  ∧ (fromBranchEvents sourceErr (parseArgs args)).head? =
      some (Event.sourceRun (parseArgs args))
  ∧ replyCount (fromBranchEvents sourceErr (parseArgs args)) = 1
  ∧ replyCount (toBranchEvents sinkOk (parseArgs args)) = 1
  ∧ replyCount ((handleRequest sourceErr sinkOk ("scp" :: args)).getD []) = 2 := by
  have h1 : replyCount (fromBranchEvents sourceErr (parseArgs args)) = 1 := by
    cases sourceErr <;> simp [fromBranchEvents, replyCount, isReply, hf]
  have h2 : replyCount (toBranchEvents sinkOk (parseArgs args)) = 1 := by
    by_cases hl : (parseArgs args).fileNames.length = 1 <;>
      simp [toBranchEvents, replyCount, isReply, ht, hl]
  refine ⟨by simp [handleRequest], by simp [fromBranchEvents, hf], h1, h2, ?_⟩
  simp [handleRequest, replyCount, List.countP_append] at h1 h2 ⊢
  omega

/-- Witness for C10 at the concrete request `scp -f -t x`. -/
theorem bothFlagsRunSourceThenSink_witness :
    replyCount ((handleRequest none true ["scp", "-f", "-t", "x"]).getD []) = 2 :=
  (bothFlagsRunSourceThenSink none true ["-f", "-t", "x"]
    (by decide) (by decide)).2.2.2.2

/-- While no `--` token has been consumed, the parsing loop computes each
flag as the disjunction of its accumulator value and the presence of the
corresponding token in the remaining input. -/
theorem parseFold_flags (args : List String) : ∀ acc : scpOptions, "--" ∉ args →
    flagsOf ((args.foldl parseStep (true, acc)).2) =
      (acc.From || decide ("-f" ∈ args), acc.To || decide ("-t" ∈ args),
       acc.TargetIsDir || decide ("-d" ∈ args),
       acc.PreserveMode || decide ("-p" ∈ args),
       acc.Recursive || decide ("-r" ∈ args)) := by
  induction args with
  | nil => intro acc h; simp [flagsOf]
  | cons e rest ih =>
    intro acc h
    have hne : e ≠ "--" := by intro he; exact h (by simp [he])
    have hrest : "--" ∉ rest := fun hm => h (List.mem_cons_of_mem e hm)
    rw [List.foldl_cons]
    by_cases h1 : e = "-f"
    · subst h1
      have hs : parseStep (true, acc) "-f" = (true, { acc with From := true }) := by
        simp [parseStep]
      rw [hs, ih _ hrest]
      simp [List.mem_cons]
    · by_cases h2 : e = "-t"
      · subst h2
        have hs : parseStep (true, acc) "-t" = (true, { acc with To := true }) := by
          simp [parseStep]
        rw [hs, ih _ hrest]
        simp [List.mem_cons]
      · by_cases h3 : e = "-d"
        · subst h3
          have hs : parseStep (true, acc) "-d" =
              (true, { acc with TargetIsDir := true }) := by
            simp [parseStep]
          rw [hs, ih _ hrest]
          simp [List.mem_cons]
        · by_cases h4 : e = "-p"
          · subst h4
            have hs : parseStep (true, acc) "-p" =
                (true, { acc with PreserveMode := true }) := by
              simp [parseStep]
            rw [hs, ih _ hrest]
            simp [List.mem_cons]
          · by_cases h5 : e = "-r"
            · subst h5
              have hs : parseStep (true, acc) "-r" =
                  (true, { acc with Recursive := true }) := by
                simp [parseStep]
              rw [hs, ih _ hrest]
              simp [List.mem_cons]
            · by_cases h6 : e = "-v"
              · subst h6
                have hs : parseStep (true, acc) "-v" = (true, acc) := by
                  simp [parseStep]
                rw [hs, ih _ hrest]
                simp [List.mem_cons]
              · have hs : parseStep (true, acc) e =
                    (true, { acc with fileNames := acc.fileNames ++ [e] }) := by
                  simp [parseStep, h1, h2, h3, h4, h5, h6, hne]
                rw [hs, ih _ hrest]
                have h1' : ¬("-f" = e) := fun hh => h1 hh.symm
                have h2' : ¬("-t" = e) := fun hh => h2 hh.symm
                have h3' : ¬("-d" = e) := fun hh => h3 hh.symm
                have h4' : ¬("-p" = e) := fun hh => h4 hh.symm
                have h5' : ¬("-r" = e) := fun hh => h5 hh.symm
                simp [List.mem_cons, h1', h2', h3', h4', h5']

/-- A step on a flag token is idempotent: consuming the same flag token
twice in a row leaves the same parsing state as consuming it once. -/
theorem parseStep_flag_idem (st : Bool × scpOptions) (f : String)
    (hf : f = "-f" ∨ f = "-t" ∨ f = "-d" ∨ f = "-p" ∨ f = "-r" ∨ f = "-v") :
    parseStep (parseStep st f) f = parseStep st f := by
  obtain ⟨b, o⟩ := st
  rcases hf with h | h | h | h | h | h <;> subst h <;> cases b <;> simp [parseStep]

/-- C9: for token sequences containing no `--`, each parsed flag equals
the presence of its token in the input (the output reflects exactly the
flags present); consequently the flag fields are invariant under any
permutation of the tokens; and a repeated flag token yields the same
options record as a single occurrence. -/
theorem copyFlagParsingFaithful (args : List String) (h : "--" ∉ args) :
    flagsOf (parseArgs args) =
      (decide ("-f" ∈ args), decide ("-t" ∈ args), decide ("-d" ∈ args),
       decide ("-p" ∈ args), decide ("-r" ∈ args))
  ∧ (∀ args2 : List String, args.Perm args2 →
       flagsOf (parseArgs args) = flagsOf (parseArgs args2))
  ∧ (∀ (l1 l2 : List String) (f : String),
       f ∈ (["-f", "-t", "-d", "-p", "-r", "-v"] : List String) →
       parseArgs (l1 ++ f :: f :: l2) = parseArgs (l1 ++ f :: l2)) := by
  have hchar : ∀ xs : List String, "--" ∉ xs →
      flagsOf (parseArgs xs) =
        (decide ("-f" ∈ xs), decide ("-t" ∈ xs), decide ("-d" ∈ xs),
         decide ("-p" ∈ xs), decide ("-r" ∈ xs)) := by
    intro xs hxs
    have hc := parseFold_flags xs {} hxs
    simpa [parseArgs] using hc
  refine ⟨hchar args h, ?_, ?_⟩
  · intro args2 hp
    have h2 : "--" ∉ args2 := fun hm => h (hp.mem_iff.mpr hm)
    rw [hchar args h, hchar args2 h2]
    simp only [Prod.mk.injEq]
    exact ⟨decide_eq_decide.mpr hp.mem_iff, decide_eq_decide.mpr hp.mem_iff,
      decide_eq_decide.mpr hp.mem_iff, decide_eq_decide.mpr hp.mem_iff,
      decide_eq_decide.mpr hp.mem_iff⟩
  · intro l1 l2 f hf
    have hf' : f = "-f" ∨ f = "-t" ∨ f = "-d" ∨ f = "-p" ∨ f = "-r" ∨ f = "-v" := by
      simpa using hf
    unfold parseArgs
    rw [List.foldl_append, List.foldl_append, List.foldl_cons, List.foldl_cons,
      List.foldl_cons, parseStep_flag_idem _ f hf']

/-- Witness for C9: flag order does not matter (`-t -f` versus `-f -t`),
and a duplicated `-p` after `-r` parses like a single `-p`. -/
theorem copyFlagParsingFaithful_witness :
    flagsOf (parseArgs ["-t", "-f"]) = flagsOf (parseArgs ["-f", "-t"])
  ∧ parseArgs (["-r"] ++ "-p" :: "-p" :: []) = parseArgs (["-r"] ++ "-p" :: []) :=
  ⟨(copyFlagParsingFaithful ["-t", "-f"] (by decide)).2.1 ["-f", "-t"]
      (List.Perm.swap "-f" "-t" []),
   (copyFlagParsingFaithful ["-t", "-f"] (by decide)).2.2 ["-r"] [] "-p" (by decide)⟩

/-- C5 counterexample: on the rejection path for the non-copy command
`ls` the handler closes the channel, yet the trace contains no
exit-status event at all — the channel is not closed "only after the
exit-status request has been sent". -/
theorem rejectionClosesWithoutExitStatus :
    Event.closeChan ∈ (handleRequest none true ["ls"]).getD []
  ∧ exitCodes ((handleRequest none true ["ls"]).getD []) = [] := by
  decide

/-- closeCount distributes over append. -/
theorem closeCount_append (a b : List Event) :
    closeCount (a ++ b) = closeCount a + closeCount b := by
  simp [closeCount, List.countP_append]

/-- The source branch never closes the channel. -/
theorem closeCount_fromBranch (sourceErr : Option String) (opts : scpOptions) :
    closeCount (fromBranchEvents sourceErr opts) = 0 := by
  cases hF : opts.From <;> cases sourceErr <;>
    simp [fromBranchEvents, closeCount, hF, List.countP_cons, List.countP_nil]

/-- C5 amended: the sink branch closes the channel exactly once,
immediately after sending the exit status; the rejection path for a
non-"scp" token closes the channel without having sent any exit status;
and when To is not set (in particular on the source-only path) the
handler does not close the channel at all. -/
theorem channelCloseDiscipline (sourceErr : Option String) (sinkOk : Bool)
    (cmd : String) (args : List String) :
    ((parseArgs args).To = true →
       closesOnceAfterExit ((handleRequest sourceErr sinkOk ("scp" :: args)).getD []))
  ∧ (cmd ≠ "scp" →
       handleRequest sourceErr sinkOk (cmd :: args) = some rejectionTrace
       ∧ closeCount rejectionTrace = 1 ∧ exitCodes rejectionTrace = [])
  ∧ ((parseArgs args).To = false →
       closeCount ((handleRequest sourceErr sinkOk ("scp" :: args)).getD []) = 0) := by
  have htrace : (handleRequest sourceErr sinkOk ("scp" :: args)).getD [] =
      fromBranchEvents sourceErr (parseArgs args) ++
        toBranchEvents sinkOk (parseArgs args) := by
    simp [handleRequest]
  refine ⟨?_, ?_, ?_⟩
  · intro hTo
    rw [htrace]
    by_cases hl : (parseArgs args).fileNames.length = 1
    · refine ⟨fromBranchEvents sourceErr (parseArgs args) ++
        [Event.sinkRun (parseArgs args) sinkOk], [Event.replyOk], 0, ?_, ?_, ?_⟩
      · simp [toBranchEvents, hTo, hl]
      · rw [closeCount_append, closeCount_fromBranch]
        simp [closeCount, List.countP_cons, List.countP_nil]
      · simp [closeCount, List.countP_cons, List.countP_nil]
    · refine ⟨fromBranchEvents sourceErr (parseArgs args) ++
        [Event.sendError "scp: ambiguous target"], [Event.replyFail none], 1,
        ?_, ?_, ?_⟩
      · simp [toBranchEvents, hTo, hl]
      · rw [closeCount_append, closeCount_fromBranch]
        simp [closeCount, List.countP_cons, List.countP_nil]
      · simp [closeCount, List.countP_cons, List.countP_nil]
  · intro h
    exact ⟨by simp [handleRequest, h], by decide, by decide⟩
  · intro hTo
    rw [htrace, closeCount_append, closeCount_fromBranch]
    simp [toBranchEvents, hTo, closeCount, List.countP_nil]

/-- Witness for C5's amended theorem: sink path `scp -t a` closes once
after the exit status; the `ls` rejection path yields exactly the
rejection trace; the source-only path `scp -f` performs no close. -/
theorem channelCloseDiscipline_witness :
    closesOnceAfterExit ((handleRequest none true ["scp", "-t", "a"]).getD [])
  ∧ handleRequest none true ["ls"] = some rejectionTrace
  ∧ closeCount ((handleRequest none true ["scp", "-f"]).getD []) = 0 :=
  ⟨(channelCloseDiscipline none true "ls" ["-t", "a"]).1 (by decide),
   ((channelCloseDiscipline none true "ls" ["-t", "a"]).2.1 (by decide)).1,
   (channelCloseDiscipline none true "ls" ["-f"]).2.2 (by decide)⟩
